import Mathlib

/-!
Shallow embedding of the luna-app telemetry simulator core
(`src/lib` auto-simulator, admin drone-control route, and the shared
override-state map), with theorems checking the natural-language
specification against it.

Modelling conventions:
* JS numbers are embedded as exact rationals `ℚ`; `Math.round x` is
  `⌊x + 1/2⌋` (round half toward +∞), which is `Math.round`'s semantics.
* A JS `Date` is a structure `DateT` carrying its absolute time in
  milliseconds together with the local-calendar accessors `getHours` /
  `getDay` as data; `Date` comparison compares the millisecond values.
* `Math.random()` is an infinite stream `ℕ → ℚ` of draws consumed in
  program order; `RngOk s` states the `Math.random` contract
  `0 ≤ s n < 1`.
* `Math.sqrt` and `Math.sin` are irrational-valued, so the simulator is
  parametric over functions `msqrt msin : ℚ → ℚ` standing for them;
  theorems that depend on `Math.sqrt`'s value hypothesise exactly the
  defining property `0 ≤ msqrt q ∧ msqrt q * msqrt q = q` at the
  arguments actually passed.
* The process-wide `droneStates : Map<string, …>` is a function
  `String → Option OverrideState`, with `Map.get`/`Map.set` embedded
  pointwise.
-/

namespace Luna

/-- JS `Math.round`: round half toward positive infinity, exact on `ℚ`. -/
def jsRound (q : ℚ) : ℤ := ⌊q + 1/2⌋

/-- `Math.round(x * 10) / 10` — round to one decimal place. -/
def round1 (q : ℚ) : ℚ := (jsRound (q * 10) : ℚ) / 10

/-- `Math.round(x * 1000000) / 1000000` — round to six decimal places. -/
def round6 (q : ℚ) : ℚ := (jsRound (q * 1000000) : ℚ) / 1000000

/-- A JS `Date`: milliseconds since epoch plus the local-calendar
accessors `getHours()` and `getDay()` carried as data. -/
structure DateT where
  millis : ℤ
  hour : ℕ
  day : ℕ
deriving DecidableEq

/-- The `Math.random()` stream: draw `n` is the value of the `n`-th call. -/
def Rng : Type := ℕ → ℚ

/-- Dropping the first `k` draws of the stream. -/
def Rng.drop (s : Rng) (k : ℕ) : Rng := fun n => s (n + k)

/-- The `Math.random` contract: every draw lies in `[0, 1)`. -/
def RngOk (s : Rng) : Prop := ∀ n, 0 ≤ s n ∧ s n < 1

theorem RngOk.drop {s : Rng} (h : RngOk s) (k : ℕ) : RngOk (s.drop k) :=
  fun n => h (n + k)

/-- One entry of the shared `droneStates` map
(`src/app/api/admin/drone-control/const`). -/
structure OverrideState where
  status : String
  isOnline : Bool
  battery : Option ℚ
  lastUpdate : ℤ
  manualOverride : Bool
  overrideExpiry : Option ℤ
  lastPosition : Option (ℚ × ℚ)
deriving DecidableEq

/-- The process-wide `droneStates` JS `Map`, embedded as a partial map. -/
def Registry : Type := String → Option OverrideState

/-- `droneStates.set(id, v)`. -/
def Registry.set (reg : Registry) (id : String) (v : OverrideState) : Registry :=
  fun x => if x = id then some v else reg x

/-- `droneStates.get(id)`. -/
def Registry.get (reg : Registry) (id : String) : Option OverrideState := reg id

/-- `isDroneUnderManualOverride` (admin route, also imported by the
auto-simulator): looks the drone up in `droneStates`; absent or
flag-false entries are not overridden; a flag-true entry whose expiry
is strictly in the past is cleared in place (flag set false, expiry
removed) and reported not overridden; otherwise the drone is
overridden. Returns the boolean together with the map after the call. -/
def isDroneUnderManualOverride (reg : Registry) (droneId : String) (now : ℤ) :
    Bool × Registry :=
  match reg.get droneId with
  | none => (false, reg)
  | some st =>
    if st.manualOverride = false then (false, reg)
    else
      match st.overrideExpiry with
      | some expiry =>
        if now > expiry then
          (false, reg.set droneId
            { st with manualOverride := false, overrideExpiry := none })
        else (true, reg)
      | none => (true, reg)

/-- The cleared form of an override entry, as written back by the
expiry branch of `isDroneUnderManualOverride`. -/
def clearedState (st : OverrideState) : OverrideState :=
  { st with manualOverride := false, overrideExpiry := none }

theorem isOv_absent (reg : Registry) (droneId : String) (now : ℤ)
    (h : reg.get droneId = none) :
    isDroneUnderManualOverride reg droneId now = (false, reg) := by
  unfold isDroneUnderManualOverride
  rw [h]

theorem isOv_flagFalse (reg : Registry) (droneId : String) (now : ℤ)
    (st : OverrideState) (h : reg.get droneId = some st)
    (hf : st.manualOverride = false) :
    isDroneUnderManualOverride reg droneId now = (false, reg) := by
  unfold isDroneUnderManualOverride
  rw [h]
  simp [hf]

theorem isOv_expired (reg : Registry) (droneId : String) (now : ℤ)
    (st : OverrideState) (expiry : ℤ) (h : reg.get droneId = some st)
    (hf : st.manualOverride = true) (he : st.overrideExpiry = some expiry)
    (hp : now > expiry) :
    isDroneUnderManualOverride reg droneId now =
      (false, reg.set droneId (clearedState st)) := by
  unfold isDroneUnderManualOverride
  rw [h]
  simp [hf, he, hp, clearedState]

theorem isOv_active (reg : Registry) (droneId : String) (now : ℤ)
    (st : OverrideState) (h : reg.get droneId = some st)
    (hf : st.manualOverride = true)
    (he : st.overrideExpiry = none ∨
      ∃ expiry, st.overrideExpiry = some expiry ∧ ¬ now > expiry) :
    isDroneUnderManualOverride reg droneId now = (true, reg) := by
  unfold isDroneUnderManualOverride
  rw [h]
  rcases he with he | ⟨expiry, he, hne⟩ <;> simp [hf, he]
  exact le_of_not_lt hne

/-- A flag-false entry, as a sample point. -/
def stFlagOff : OverrideState :=
  { status := "Standby", isOnline := true, battery := some 85, lastUpdate := 0,
    manualOverride := false, overrideExpiry := some 100, lastPosition := none }

/-- A flag-true entry whose expiry (100) is in the past at time 200. -/
def stExpired : OverrideState :=
  { status := "In Flight", isOnline := true, battery := some 70, lastUpdate := 0,
    manualOverride := true, overrideExpiry := some 100, lastPosition := none }

/-- A flag-true entry with no expiry. -/
def stNoExpiry : OverrideState :=
  { status := "Active", isOnline := true, battery := none, lastUpdate := 0,
    manualOverride := true, overrideExpiry := none, lastPosition := none }

/-- A flag-true entry whose expiry (300) is still in the future at time 200. -/
def stFuture : OverrideState :=
  { status := "Landing", isOnline := false, battery := some 60, lastUpdate := 0,
    manualOverride := true, overrideExpiry := some 300,
    lastPosition := some (-1.2921, 36.8219) }

/-- A sample registry holding one entry of each kind. -/
def regSample : Registry := fun id =>
  if id = "A1" then some stFlagOff
  else if id = "A2" then some stExpired
  else if id = "B1" then some stNoExpiry
  else if id = "B2" then some stFuture
  else none

/-- C2: `isOverridden` case analysis. Absent entry or flag false: returns
false with the registry untouched. Flag true with an existing expiry
strictly in the past: clears the entry in place (flag false, expiry
removed) and returns false. Every other case (flag true with no expiry,
or flag true with an expiry not in the past): returns true with the
registry untouched. -/
theorem overrideCheck_cases (reg : Registry) (droneId : String) (now : ℤ) :
    (reg.get droneId = none →
      isDroneUnderManualOverride reg droneId now = (false, reg)) ∧
    (∀ st, reg.get droneId = some st → st.manualOverride = false →
      isDroneUnderManualOverride reg droneId now = (false, reg)) ∧
    (∀ st expiry, reg.get droneId = some st → st.manualOverride = true →
      st.overrideExpiry = some expiry → now > expiry →
      isDroneUnderManualOverride reg droneId now =
        (false, reg.set droneId (clearedState st))) ∧
    (∀ st, reg.get droneId = some st → st.manualOverride = true →
      (st.overrideExpiry = none ∨
        ∃ expiry, st.overrideExpiry = some expiry ∧ ¬ now > expiry) →
      isDroneUnderManualOverride reg droneId now = (true, reg)) :=
  ⟨fun h => isOv_absent reg droneId now h,
   fun st h hf => isOv_flagFalse reg droneId now st h hf,
   fun st expiry h hf he hp => isOv_expired reg droneId now st expiry h hf he hp,
   fun st h hf he => isOv_active reg droneId now st h hf he⟩

/-- Witness for C2: all four branches evaluated on the sample registry. -/
theorem overrideCheck_cases_witness :
    isDroneUnderManualOverride regSample "Z9" 200 = (false, regSample) ∧
    isDroneUnderManualOverride regSample "A1" 200 = (false, regSample) ∧
    isDroneUnderManualOverride regSample "A2" 200 =
      (false, regSample.set "A2" (clearedState stExpired)) ∧
    isDroneUnderManualOverride regSample "B1" 200 = (true, regSample) ∧
    isDroneUnderManualOverride regSample "B2" 200 = (true, regSample) :=
  ⟨(overrideCheck_cases regSample "Z9" 200).1 rfl,
   (overrideCheck_cases regSample "A1" 200).2.1 stFlagOff rfl rfl,
   (overrideCheck_cases regSample "A2" 200).2.2.1 stExpired 100 rfl rfl rfl
     (by decide),
   (overrideCheck_cases regSample "B1" 200).2.2.2 stNoExpiry rfl rfl (Or.inl rfl),
   (overrideCheck_cases regSample "B2" 200).2.2.2 stFuture rfl rfl
     (Or.inr ⟨300, rfl, by decide⟩)⟩

/-- C3: lazy expiry clear is idempotent. Starting from a flag-true entry
with a past expiry, the first `isOverridden` call returns false and
stores the cleared entry; every later call, at any time, returns false
again and leaves the registry (in particular the cleared flag and the
removed expiry) exactly as it is — the override is never re-activated. -/
theorem overrideExpiry_idempotent (reg : Registry) (droneId : String) (now : ℤ)
    (st : OverrideState) (expiry : ℤ) (h : reg.get droneId = some st)
    (hf : st.manualOverride = true) (he : st.overrideExpiry = some expiry)
    (hp : now > expiry) :
    (isDroneUnderManualOverride reg droneId now).1 = false ∧
    ((isDroneUnderManualOverride reg droneId now).2).get droneId =
      some (clearedState st) ∧
    ∀ later, isDroneUnderManualOverride
        (isDroneUnderManualOverride reg droneId now).2 droneId later =
      (false, (isDroneUnderManualOverride reg droneId now).2) := by
  have h1 := isOv_expired reg droneId now st expiry h hf he hp
  rw [h1]
  refine ⟨rfl, ?_, ?_⟩
  · simp [Registry.get, Registry.set]
  · intro later
    refine isOv_flagFalse _ droneId later (clearedState st) ?_ rfl
    simp [Registry.get, Registry.set]

/-- Witness for C3: the expired entry of the sample registry. -/
theorem overrideExpiry_idempotent_witness :
    regSample.get "A2" = some stExpired ∧
    stExpired.manualOverride = true ∧
    stExpired.overrideExpiry = some 100 ∧ (200 : ℤ) > 100 ∧
    ((isDroneUnderManualOverride regSample "A2" 200).1 = false ∧
     ((isDroneUnderManualOverride regSample "A2" 200).2).get "A2" =
       some (clearedState stExpired) ∧
     ∀ later, isDroneUnderManualOverride
         (isDroneUnderManualOverride regSample "A2" 200).2 "A2" later =
       (false, (isDroneUnderManualOverride regSample "A2" 200).2)) :=
  ⟨rfl, rfl, rfl, by decide,
   overrideExpiry_idempotent regSample "A2" 200 stExpired 100 rfl rfl rfl
     (by decide)⟩

/-- A latitude/longitude pair. -/
structure Coord where
  lat : ℚ
  lng : ℚ
deriving DecidableEq

/-- One entry of the fixed destination list (lat, lng, name). -/
structure Destination where
  lat : ℚ
  lng : ℚ
  name : String
deriving DecidableEq

/-- The drone's internal mission phase. -/
inductive MissionPhase
  | idle
  | preparing
  | flying
  | delivering
  | returning
deriving DecidableEq

/-- A `DroneProfile` as held in the simulator's profile map. The unused
declared field `manualOverride?` is carried as an `Option Bool`. -/
structure DroneProfile where
  id : String
  name : String
  baseLocation : Coord
  batteryDecayRate : ℚ
  maxSpeed : ℚ
  operatingAltitude : ℚ
  currentBattery : ℚ
  currentLocation : Coord
  missionPhase : MissionPhase
  missionStartTime : Option ℤ := none
  destination : Option Destination := none
  manualOverride : Option Bool := none
deriving DecidableEq

/-- The fixed list of 5 named delivery sites. -/
def destinations : List Destination :=
  [ { lat := -1.2500, lng := 36.7833, name := "Karen Hospital" },
    { lat := -1.3500, lng := 36.9167, name := "Machakos Hospital" },
    { lat := -1.1667, lng := 36.8000, name := "Kiambu Medical Center" },
    { lat := -1.4000, lng := 36.9500, name := "Athi River Clinic" },
    { lat := -1.2000, lng := 36.7500, name := "Limuru Health Center" } ]

/-- `calculateDistance`: planar distance in degrees,
`Math.sqrt(latDiff² + lngDiff²)` with `Math.sqrt` as `msqrt`. -/
def calculateDistance (msqrt : ℚ → ℚ) (point1 point2 : Coord) : ℚ :=
  let latDiff := point2.lat - point1.lat
  let lngDiff := point2.lng - point1.lng
  msqrt (latDiff * latDiff + lngDiff * lngDiff)

/-- The squared straight-line distance `latDiff² + lngDiff²` — the exact
argument the source passes to `Math.sqrt`. -/
def distSq (point1 point2 : Coord) : ℚ :=
  (point2.lat - point1.lat) * (point2.lat - point1.lat) +
    (point2.lng - point1.lng) * (point2.lng - point1.lng)

/-- The per-tick travel step in degrees:
`maxSpeed × (20/3600) / 111` (20 s of travel at 111 km per degree). -/
def degreeStepOf (maxSpeed : ℚ) : ℚ := maxSpeed * (20 / 3600) / 111

/-- `moveTowardsDestination`: if the straight-line distance to the
target is positive, advance the current location by the fraction
`min(degreeStep / totalDistance, 1)` of the remaining delta. -/
def moveTowardsDestination (msqrt : ℚ → ℚ) (profile : DroneProfile)
    (destination : Coord) : DroneProfile :=
  let speed := profile.maxSpeed
  let timeStep : ℚ := 20 / 3600
  let distanceStep := speed * timeStep
  let degreeStep := distanceStep / 111
  let latDiff := destination.lat - profile.currentLocation.lat
  let lngDiff := destination.lng - profile.currentLocation.lng
  let totalDistance := msqrt (latDiff * latDiff + lngDiff * lngDiff)
  if totalDistance > 0 then
    let frac := min (degreeStep / totalDistance) 1
    { profile with currentLocation :=
        { lat := profile.currentLocation.lat + latDiff * frac,
          lng := profile.currentLocation.lng + lngDiff * frac } }
  else profile

/-- The global post-step clamp `battery = max(15, battery)`. -/
def clampBattery (profile : DroneProfile) : DroneProfile :=
  { profile with currentBattery := max 15 profile.currentBattery }

/-- The `switch` body of `updateDroneState`, before the global battery
clamp. Returns the updated profile and the remaining random stream;
`Math.random()` calls are consumed exactly where the source places
them, honouring `&&` / `||` short-circuiting. -/
def updateDroneStateCore (msqrt : ℚ → ℚ) (profile : DroneProfile)
    (now : DateT) (s : Rng) : DroneProfile × Rng :=
  match profile.missionPhase with
  | .idle =>
    if 8 ≤ now.hour ∧ now.hour ≤ 18 then
      if s 0 < 0.10 ∧ profile.currentBattery > 50 then
        let idx := (⌊s 1 * (destinations.length : ℚ)⌋).toNat
        ({ profile with
            missionPhase := .preparing,
            missionStartTime := some now.millis,
            destination := destinations[idx]? }, s.drop 2)
      else
        ({ profile with
            currentBattery := min 100 (profile.currentBattery + 0.3) }, s.drop 1)
    else
      ({ profile with
          currentBattery := min 100 (profile.currentBattery + 0.3) }, s)
  | .preparing =>
    if s 0 < 0.5 then ({ profile with missionPhase := .flying }, s.drop 1)
    else (profile, s.drop 1)
  | .flying =>
    match profile.destination with
    | some dest =>
      let moved := moveTowardsDestination msqrt profile ⟨dest.lat, dest.lng⟩
      let decayed := { moved with
        currentBattery := moved.currentBattery - profile.batteryDecayRate * 0.8 }
      let distanceToDestination :=
        calculateDistance msqrt decayed.currentLocation ⟨dest.lat, dest.lng⟩
      if distanceToDestination < 0.005 then
        ({ decayed with missionPhase := .delivering }, s)
      else if s 0 < 0.08 then
        ({ decayed with missionPhase := .delivering }, s.drop 1)
      else (decayed, s.drop 1)
    | none => (profile, s)
  | .delivering =>
    let decayed := { profile with
      currentBattery := profile.currentBattery - 0.2 }
    if s 0 < 0.3 then ({ decayed with missionPhase := .returning }, s.drop 1)
    else (decayed, s.drop 1)
  | .returning =>
    let moved := moveTowardsDestination msqrt profile profile.baseLocation
    let decayed := { moved with
      currentBattery := moved.currentBattery - profile.batteryDecayRate * 0.6 }
    let distanceToBase :=
      calculateDistance msqrt decayed.currentLocation profile.baseLocation
    let landed := { decayed with
      missionPhase := .idle,
      currentLocation := profile.baseLocation,
      destination := none,
      missionStartTime := none }
    if distanceToBase < 0.002 then (landed, s)
    else if s 0 < 0.12 then (landed, s.drop 1)
    else (decayed, s.drop 1)

/-- `updateDroneState`: one state-machine step followed by the global
battery clamp `battery = max(15, battery)`. -/
def updateDroneState (msqrt : ℚ → ℚ) (profile : DroneProfile) (now : DateT)
    (s : Rng) : DroneProfile × Rng :=
  let stepped := updateDroneStateCore msqrt profile now s
  (clampBattery stepped.1, stepped.2)

theorem move_currentBattery (msqrt : ℚ → ℚ) (profile : DroneProfile)
    (destination : Coord) :
    (moveTowardsDestination msqrt profile destination).currentBattery =
      profile.currentBattery := by
  simp only [moveTowardsDestination]
  split <;> rfl

theorem core_battery_le (msqrt : ℚ → ℚ) (profile : DroneProfile) (now : DateT)
    (s : Rng) (hB : profile.currentBattery ≤ 100)
    (hR : 0 ≤ profile.batteryDecayRate) :
    (updateDroneStateCore msqrt profile now s).1.currentBattery ≤ 100 := by
  have h8 : (0 : ℚ) ≤ profile.batteryDecayRate * 0.8 := by positivity
  have h6 : (0 : ℚ) ≤ profile.batteryDecayRate * 0.6 := by positivity
  have hmb := move_currentBattery msqrt profile
  cases hph : profile.missionPhase
  case idle =>
    simp only [updateDroneStateCore, hph]
    split_ifs <;> first | exact hB | exact min_le_left _ _
  case preparing =>
    simp only [updateDroneStateCore, hph]
    split_ifs <;> exact hB
  case flying =>
    cases hd : profile.destination with
    | none => simp only [updateDroneStateCore, hph, hd]; exact hB
    | some dest =>
      simp only [updateDroneStateCore, hph, hd]
      split_ifs <;> dsimp only <;> rw [hmb] <;> linarith
  case delivering =>
    simp only [updateDroneStateCore, hph]
    split_ifs <;> dsimp only <;> linarith
  case returning =>
    simp only [updateDroneStateCore, hph]
    split_ifs <;> dsimp only <;> rw [hmb] <;> linarith

/-- C4: starting from a profile whose battery is at most 100 (and whose
configured decay rate is nonnegative, as every configured profile's
is), one `updateDroneState` step leaves the battery inside `[15, 100]`:
the post-step clamp enforces the floor of 15 in every phase, and the
only increase happens while idle, capped at 100. -/
theorem battery_in_range (msqrt : ℚ → ℚ) (profile : DroneProfile) (now : DateT)
    (s : Rng) (hB : profile.currentBattery ≤ 100)
    (hR : 0 ≤ profile.batteryDecayRate) :
    15 ≤ (updateDroneState msqrt profile now s).1.currentBattery ∧
      (updateDroneState msqrt profile now s).1.currentBattery ≤ 100 := by
  have h := core_battery_le msqrt profile now s hB hR
  unfold updateDroneState clampBattery
  exact ⟨le_max_left 15 _, max_le (by norm_num) h⟩

/-- A sample profile (drone `A1` with its configured static values,
battery 90, at base, idle). -/
def profileA1 : DroneProfile :=
  { id := "A1", name := "Drone A1",
    baseLocation := { lat := -1.2921, lng := 36.8219 },
    batteryDecayRate := 0.8, maxSpeed := 65, operatingAltitude := 150,
    currentBattery := 90,
    currentLocation := { lat := -1.2921, lng := 36.8219 },
    missionPhase := .idle }

/-- A constant half random stream, as a sample point. -/
def rngHalf : Rng := fun _ => 1/2

theorem rngHalf_ok : RngOk rngHalf :=
  fun _ => ⟨by norm_num [rngHalf], by norm_num [rngHalf]⟩

/-- Witness for C4 on the sample profile during business hours. -/
theorem battery_in_range_witness :
    profileA1.currentBattery ≤ 100 ∧ (0 : ℚ) ≤ profileA1.batteryDecayRate ∧
    (15 ≤ (updateDroneState (fun _ => 0) profileA1 ⟨0, 10, 2⟩ rngHalf).1.currentBattery ∧
      (updateDroneState (fun _ => 0) profileA1 ⟨0, 10, 2⟩ rngHalf).1.currentBattery ≤ 100) :=
  ⟨by norm_num [profileA1], by norm_num [profileA1],
   battery_in_range (fun _ => 0) profileA1 ⟨0, 10, 2⟩ rngHalf
     (by norm_num [profileA1]) (by norm_num [profileA1])⟩

theorem destinations_length : destinations.length = 5 := rfl

/-- C8: one step from `idle`. If the local hour is in `[8, 18]`, the
mission draw is below 0.10 and the battery exceeds 50, the step moves
to `preparing`, records the mission start time, and assigns one of the
5 fixed destinations; otherwise the phase stays `idle` and the battery
recharges by 0.3, capped at 100 (the battery hypothesis `15 ≤ battery`
is the clamp invariant every simulated profile satisfies). -/
theorem idle_step (msqrt : ℚ → ℚ) (profile : DroneProfile) (now : DateT)
    (s : Rng) (hph : profile.missionPhase = .idle) (hs : RngOk s)
    (hb : 15 ≤ profile.currentBattery) :
    ((8 ≤ now.hour ∧ now.hour ≤ 18) ∧ s 0 < 0.10 ∧ profile.currentBattery > 50 →
      (updateDroneState msqrt profile now s).1.missionPhase = .preparing ∧
      (updateDroneState msqrt profile now s).1.missionStartTime = some now.millis ∧
      ∃ d ∈ destinations,
        (updateDroneState msqrt profile now s).1.destination = some d) ∧
    (¬((8 ≤ now.hour ∧ now.hour ≤ 18) ∧ s 0 < 0.10 ∧ profile.currentBattery > 50) →
      (updateDroneState msqrt profile now s).1.missionPhase = .idle ∧
      (updateDroneState msqrt profile now s).1.currentBattery =
        min 100 (profile.currentBattery + 0.3)) := by
  constructor
  · rintro ⟨hbh, hr, hbat⟩
    simp only [updateDroneState, updateDroneStateCore, hph, clampBattery]
    rw [if_pos hbh, if_pos ⟨hr, hbat⟩]
    refine ⟨rfl, rfl, ?_⟩
    have h0 := (hs 1).1
    have h1 := (hs 1).2
    have hlen : ((destinations.length : ℕ) : ℚ) = 5 := by
      rw [destinations_length]; norm_num
    have hflt : ⌊s 1 * (destinations.length : ℚ)⌋ < 5 := by
      rw [hlen]
      have : s 1 * 5 < 5 := by linarith
      exact Int.floor_lt.mpr (by push_cast; linarith)
    have hidx : (⌊s 1 * (destinations.length : ℚ)⌋).toNat < destinations.length := by
      have h5 : destinations.length = 5 := rfl
      omega
    refine ⟨destinations[(⌊s 1 * (destinations.length : ℚ)⌋).toNat], ?_, ?_⟩
    · exact List.getElem_mem hidx
    · dsimp only
      rw [List.getElem?_eq_getElem hidx]
  · intro hneg
    simp only [updateDroneState, updateDroneStateCore, hph, clampBattery]
    have hclamp : max 15 (min 100 (profile.currentBattery + 0.3)) =
        min 100 (profile.currentBattery + 0.3) :=
      max_eq_right (le_min (by norm_num) (by linarith))
    split_ifs with h1 h2
    · exact absurd ⟨h1, h2.1, h2.2⟩ hneg
    · exact ⟨rfl, hclamp⟩
    · exact ⟨rfl, hclamp⟩

/-- Witness for C8: both branches at concrete inputs. The mission
branch uses a low draw during business hours; the recharge branch uses
an off-hours date. -/
theorem idle_step_witness :
    (profileA1.missionPhase = .idle ∧ 15 ≤ profileA1.currentBattery ∧
      ((8 ≤ (10 : ℕ) ∧ (10 : ℕ) ≤ 18) ∧ (fun _ => (1 : ℚ)/20) 0 < 0.10 ∧
        profileA1.currentBattery > 50) ∧
      ((updateDroneState (fun _ => 0) profileA1 ⟨0, 10, 2⟩
          (fun _ => (1 : ℚ)/20)).1.missionPhase = .preparing ∧
       (updateDroneState (fun _ => 0) profileA1 ⟨0, 10, 2⟩
          (fun _ => (1 : ℚ)/20)).1.missionStartTime = some 0 ∧
       ∃ d ∈ destinations, (updateDroneState (fun _ => 0) profileA1 ⟨0, 10, 2⟩
          (fun _ => (1 : ℚ)/20)).1.destination = some d)) ∧
    ((updateDroneState (fun _ => 0) profileA1 ⟨0, 3, 2⟩ rngHalf).1.missionPhase
        = .idle ∧
     (updateDroneState (fun _ => 0) profileA1 ⟨0, 3, 2⟩ rngHalf).1.currentBattery
        = min 100 (profileA1.currentBattery + 0.3)) :=
  ⟨⟨rfl, by norm_num [profileA1],
    ⟨⟨by norm_num, by norm_num⟩, by norm_num, by norm_num [profileA1]⟩,
    (idle_step (fun _ => 0) profileA1 ⟨0, 10, 2⟩ (fun _ => (1 : ℚ)/20) rfl
        (fun _ => ⟨by norm_num, by norm_num⟩) (by norm_num [profileA1])).1
      ⟨⟨by norm_num, by norm_num⟩, by norm_num, by norm_num [profileA1]⟩⟩,
   (idle_step (fun _ => 0) profileA1 ⟨0, 3, 2⟩ rngHalf rfl rngHalf_ok
        (by norm_num [profileA1])).2
     (by rintro ⟨⟨h8, _⟩, _⟩; exact absurd h8 (by norm_num))⟩

/-- C7: one application of `moveTowardsDestination` never overshoots
and never increases the distance to the target. With `D` the value
`Math.sqrt` returns for the squared remaining distance (hypothesised to
be its exact nonnegative square root) and `step` the positive travel
step in degrees: if `D ≤ step` the new position is exactly the target;
if `step ≤ D` the new squared distance is `(D - step)²`, i.e. the new
distance is the old one minus the step; and in every case the squared
distance does not increase. -/
theorem move_no_overshoot (msqrt : ℚ → ℚ) (profile : DroneProfile) (dest : Coord)
    (hstep : 0 < degreeStepOf profile.maxSpeed)
    (hD0 : 0 ≤ msqrt (distSq profile.currentLocation dest))
    (hD2 : msqrt (distSq profile.currentLocation dest) *
        msqrt (distSq profile.currentLocation dest) =
        distSq profile.currentLocation dest) :
    (msqrt (distSq profile.currentLocation dest) ≤ degreeStepOf profile.maxSpeed →
      (moveTowardsDestination msqrt profile dest).currentLocation = dest) ∧
    (degreeStepOf profile.maxSpeed ≤ msqrt (distSq profile.currentLocation dest) →
      distSq (moveTowardsDestination msqrt profile dest).currentLocation dest =
        (msqrt (distSq profile.currentLocation dest) -
            degreeStepOf profile.maxSpeed) *
          (msqrt (distSq profile.currentLocation dest) -
            degreeStepOf profile.maxSpeed)) ∧
    distSq (moveTowardsDestination msqrt profile dest).currentLocation dest ≤
      distSq profile.currentLocation dest := by
  obtain ⟨pid, pname, pbase, prate, pspeed, palt, pbat, ⟨plat, plng⟩, pphase,
    pstart, pdest, pov⟩ := profile
  obtain ⟨dlat, dlng⟩ := dest
  simp only [moveTowardsDestination, distSq, degreeStepOf] at *
  set st := pspeed * (20 / 3600) / 111 with hstdef
  set D := msqrt ((dlat - plat) * (dlat - plat) + (dlng - plng) * (dlng - plng))
    with hDdef
  by_cases hpos : D > 0
  · have hDne : D ≠ 0 := ne_of_gt hpos
    simp only [if_pos hpos]
    have hA : D ≤ st →
        ({ lat := plat + (dlat - plat) * min (st / D) 1,
           lng := plng + (dlng - plng) * min (st / D) 1 } : Coord) =
          ({ lat := dlat, lng := dlng } : Coord) := by
      intro hle
      have h1 : (1 : ℚ) ≤ st / D := (one_le_div hpos).mpr hle
      rw [min_eq_right h1]
      have : plat + (dlat - plat) * 1 = dlat := by ring
      have h2 : plng + (dlng - plng) * 1 = dlng := by ring
      simp [this, h2]
    have hB : st ≤ D →
        (dlat - (plat + (dlat - plat) * min (st / D) 1)) *
            (dlat - (plat + (dlat - plat) * min (st / D) 1)) +
          (dlng - (plng + (dlng - plng) * min (st / D) 1)) *
            (dlng - (plng + (dlng - plng) * min (st / D) 1)) =
          (D - st) * (D - st) := by
      intro hge
      have h1 : st / D ≤ 1 := (div_le_one hpos).mpr hge
      rw [min_eq_left h1]
      have key : (dlat - (plat + (dlat - plat) * (st / D))) *
            (dlat - (plat + (dlat - plat) * (st / D))) +
          (dlng - (plng + (dlng - plng) * (st / D))) *
            (dlng - (plng + (dlng - plng) * (st / D))) =
          ((dlat - plat) * (dlat - plat) + (dlng - plng) * (dlng - plng)) *
            ((1 - st / D) * (1 - st / D)) := by ring
      rw [key, ← hD2]
      field_simp
    refine ⟨hA, hB, ?_⟩
    rcases le_total D st with h | h
    · have := hA h
      have hlat : plat + (dlat - plat) * min (st / D) 1 = dlat := by
        simpa [Coord.mk.injEq] using congrArg Coord.lat this
      have hlng : plng + (dlng - plng) * min (st / D) 1 = dlng := by
        simpa [Coord.mk.injEq] using congrArg Coord.lng this
      rw [hlat, hlng]
      nlinarith [mul_self_nonneg (dlat - plat), mul_self_nonneg (dlng - plng)]
    · have hBe := hB h
      rw [hBe, ← hD2]
      nlinarith [hstep, h]
  · have hDz : D = 0 := le_antisymm (not_lt.mp hpos) hD0
    have hsum : (dlat - plat) * (dlat - plat) + (dlng - plng) * (dlng - plng)
        = 0 := by rw [← hD2, hDz]; ring
    have hlat0 : dlat - plat = 0 := by
      nlinarith [mul_self_nonneg (dlat - plat), mul_self_nonneg (dlng - plng)]
    have hlng0 : dlng - plng = 0 := by
      nlinarith [mul_self_nonneg (dlat - plat), mul_self_nonneg (dlng - plng)]
    simp only [if_neg hpos]
    refine ⟨fun _ => ?_, fun hcon => ?_, ?_⟩
    · have h1 : plat = dlat := by linarith
      have h2 : plng = dlng := by linarith
      simp [h1, h2]
    · rw [hDz] at hcon
      linarith
    · exact le_refl _

/-- A sample profile at the origin with maxSpeed 19980, which makes the
per-tick degree step exactly 1. -/
def profileW : DroneProfile :=
  { id := "W", name := "W", baseLocation := { lat := 0, lng := 0 },
    batteryDecayRate := 0, maxSpeed := 19980, operatingAltitude := 0,
    currentBattery := 50, currentLocation := { lat := 0, lng := 0 },
    missionPhase := .flying }

/-- A `Math.sqrt` stand-in exact on the squares arising from `(3, 4)`. -/
def msqW : ℚ → ℚ := fun q => if q = 25 then 5 else if q = 16 then 4 else 0

/-- The sample target `(3, 4)`, at distance 5 from the origin. -/
def destW : Coord := { lat := 3, lng := 4 }

/-- Witness for C7: moving from the origin toward `(3, 4)` with a unit
step, with `Math.sqrt` returning the exact root 5 of the squared
distance 25. -/
theorem move_no_overshoot_witness :
    (0 : ℚ) < degreeStepOf profileW.maxSpeed ∧
    (0 : ℚ) ≤ msqW (distSq profileW.currentLocation destW) ∧
    msqW (distSq profileW.currentLocation destW) *
        msqW (distSq profileW.currentLocation destW) =
      distSq profileW.currentLocation destW ∧
    ((msqW (distSq profileW.currentLocation destW) ≤
        degreeStepOf profileW.maxSpeed →
      (moveTowardsDestination msqW profileW destW).currentLocation = destW) ∧
     (degreeStepOf profileW.maxSpeed ≤
        msqW (distSq profileW.currentLocation destW) →
      distSq (moveTowardsDestination msqW profileW destW).currentLocation destW =
        (msqW (distSq profileW.currentLocation destW) -
            degreeStepOf profileW.maxSpeed) *
          (msqW (distSq profileW.currentLocation destW) -
            degreeStepOf profileW.maxSpeed)) ∧
     distSq (moveTowardsDestination msqW profileW destW).currentLocation destW ≤
       distSq profileW.currentLocation destW) :=
  ⟨by norm_num [degreeStepOf, profileW],
   by norm_num [msqW, distSq, profileW, destW],
   by norm_num [msqW, distSq, profileW, destW],
   move_no_overshoot msqW profileW destW
     (by norm_num [degreeStepOf, profileW])
     (by norm_num [msqW, distSq, profileW, destW])
     (by norm_num [msqW, distSq, profileW, destW])⟩

/-- One `TelemetryData` record; the timestamp is kept in milliseconds. -/
structure TelemetryData where
  droneId : String
  timestamp : ℤ
  battery : ℚ
  temperature : ℚ
  humidity : ℚ
  speed : ℚ
  altitude : ℚ
  lat : ℚ
  lng : ℚ
  status : String
deriving DecidableEq

/-- The display statuses the historical generator samples from. -/
def statusOptions : List String :=
  ["Standby", "Active", "In Flight", "Delivered", "Returning"]

/-- `generateHistoricalDataPoint`: one randomized backfill record. The
activity draw happens first; an active point randomizes mid-mission
values around the base location, an inactive point is a standby
reading at base. Draws are indexed in source evaluation order
(JS object literals evaluate their fields top to bottom). -/
def generateHistoricalDataPoint (profile : DroneProfile) (timestamp : DateT)
    (s : Rng) : TelemetryData × Rng :=
  let activityLevel : ℚ :=
    if (8 ≤ timestamp.hour ∧ timestamp.hour ≤ 18) ∧
        ¬(timestamp.day = 0 ∨ timestamp.day = 6) then 0.6 else 0.2
  if s 0 < activityLevel then
    let missionProgress := s 1
    let battery := 90 - missionProgress * 40 + s 2 * 10
    let temperature := 32 + missionProgress * 8 + s 3 * 4
    let speed := profile.maxSpeed * (0.6 + s 4 * 0.4)
    let latOffset := (s 5 - 0.5) * 0.08
    let lngOffset := (s 6 - 0.5) * 0.08
    ({ droneId := profile.id,
       timestamp := timestamp.millis,
       battery := round1 (max 20 battery),
       temperature := round1 temperature,
       humidity := round1 (55 + s 7 * 25),
       speed := round1 speed,
       altitude := profile.operatingAltitude + s 8 * 40 - 20,
       lat := round6 (profile.baseLocation.lat + latOffset),
       lng := round6 (profile.baseLocation.lng + lngOffset),
       status := statusOptions.getD
         (⌊s 9 * (statusOptions.length : ℚ)⌋).toNat "Standby" }, s.drop 10)
  else
    ({ droneId := profile.id,
       timestamp := timestamp.millis,
       battery := 85 + s 1 * 15,
       temperature := 26 + s 2 * 4,
       humidity := 60 + s 3 * 20,
       speed := 0,
       altitude := 0,
       lat := profile.baseLocation.lat,
       lng := profile.baseLocation.lng,
       status := "Standby" }, s.drop 4)

/-- `generateCurrentTelemetry`: one live record for the current phase.
Draw 0 is the discarded initial temperature draw (every phase
overwrites `temperature`); each phase then draws its own values, and
the humidity noise draw comes last. `msin q` stands for
`Math.sin(q * π)`, so the source's `Math.sin((h - 6) / 12 * Math.PI)`
is `msin ((h - 6) / 12)`. -/
def generateCurrentTelemetry (msin : ℚ → ℚ) (profile : DroneProfile)
    (timestamp : DateT) (s : Rng) : TelemetryData × Rng :=
  let phaseData : String × ℚ × ℚ × ℚ × ℕ :=
    match profile.missionPhase with
    | .idle => ("Standby", 0, 0, 25 + s 1 * 3, 2)
    | .preparing => ("Pre-Flight", 0, 0, 28 + s 1 * 3, 2)
    | .flying => ("In Flight", profile.maxSpeed * (0.8 + s 1 * 0.2),
        profile.operatingAltitude + s 2 * 30 - 15, 35 + s 3 * 6, 4)
    | .delivering => ("Delivered", 0, 0, 32 + s 1 * 4, 2)
    | .returning => ("Returning", profile.maxSpeed * (0.7 + s 1 * 0.2),
        profile.operatingAltitude + s 2 * 25 - 10, 34 + s 3 * 5, 4)
  match phaseData with
  | (status, speed, altitude, temperature, used) =>
    let timeOfDay : ℚ := timestamp.hour
    let tempAdjustment := msin ((timeOfDay - 6) / 12) * 3
    let humidityBase := 65 - |timeOfDay - 14| * 1.5
    ({ droneId := profile.id,
       timestamp := timestamp.millis,
       battery := round1 profile.currentBattery,
       temperature := round1 (temperature + tempAdjustment),
       humidity := round1 (humidityBase + s used * 15),
       speed := round1 speed,
       altitude := (jsRound altitude : ℚ),
       lat := round6 profile.currentLocation.lat,
       lng := round6 profile.currentLocation.lng,
       status := status }, s.drop (used + 1))

theorem jsRound_le (q : ℚ) (k : ℤ) (h : q ≤ (k : ℚ)) : jsRound q ≤ k := by
  unfold jsRound
  have h1 : ⌊q + 1/2⌋ ≤ ⌊(k : ℚ) + 1/2⌋ := Int.floor_le_floor (by linarith)
  have h2 : ⌊(k : ℚ) + 1/2⌋ = k := by
    rw [Int.floor_int_add]
    norm_num
  omega

theorem le_jsRound (q : ℚ) (k : ℤ) (h : (k : ℚ) ≤ q) : k ≤ jsRound q := by
  unfold jsRound
  exact Int.le_floor.mpr (by linarith)

theorem round1_le_of_le {q hi : ℚ} (k : ℤ) (hk : (k : ℚ) = hi * 10)
    (h : q ≤ hi) : round1 q ≤ hi := by
  unfold round1
  have h1 : jsRound (q * 10) ≤ k := jsRound_le _ _ (by rw [hk]; linarith)
  have h2 : (jsRound (q * 10) : ℚ) ≤ (k : ℚ) := by exact_mod_cast h1
  rw [hk] at h2
  linarith

theorem le_round1_of_le {q lo : ℚ} (k : ℤ) (hk : (k : ℚ) = lo * 10)
    (h : lo ≤ q) : lo ≤ round1 q := by
  unfold round1
  have h1 : k ≤ jsRound (q * 10) := le_jsRound _ _ (by rw [hk]; linarith)
  have h2 : (k : ℚ) ≤ (jsRound (q * 10) : ℚ) := by exact_mod_cast h1
  rw [hk] at h2
  linarith

theorem round6_le_of_le {q hi : ℚ} (k : ℤ) (hk : (k : ℚ) = hi * 1000000)
    (h : q ≤ hi) : round6 q ≤ hi := by
  unfold round6
  have h1 : jsRound (q * 1000000) ≤ k := jsRound_le _ _ (by rw [hk]; linarith)
  have h2 : (jsRound (q * 1000000) : ℚ) ≤ (k : ℚ) := by exact_mod_cast h1
  rw [hk] at h2
  linarith

theorem le_round6_of_le {q lo : ℚ} (k : ℤ) (hk : (k : ℚ) = lo * 1000000)
    (h : lo ≤ q) : lo ≤ round6 q := by
  unfold round6
  have h1 : k ≤ jsRound (q * 1000000) := le_jsRound _ _ (by rw [hk]; linarith)
  have h2 : (k : ℚ) ≤ (jsRound (q * 1000000) : ℚ) := by exact_mod_cast h1
  rw [hk] at h2
  linarith

/-- The declared value domains of a telemetry record. -/
def InDomain (d : TelemetryData) : Prop :=
  0 ≤ d.battery ∧ d.battery ≤ 100 ∧ 0 ≤ d.humidity ∧ d.humidity ≤ 100 ∧
  0 ≤ d.speed ∧ 0 ≤ d.altitude ∧
  -90 ≤ d.lat ∧ d.lat ≤ 90 ∧ -180 ≤ d.lng ∧ d.lng ≤ 180

theorem histPoint_inDomain (profile : DroneProfile) (timestamp : DateT)
    (s : Rng) (hs : RngOk s) (hspeed : 0 ≤ profile.maxSpeed)
    (halt : 20 ≤ profile.operatingAltitude)
    (hblat : |profile.baseLocation.lat| ≤ 89)
    (hblng : |profile.baseLocation.lng| ≤ 179) :
    InDomain (generateHistoricalDataPoint profile timestamp s).1 := by
  obtain ⟨hb1, hb2⟩ := abs_le.mp hblat
  obtain ⟨hg1, hg2⟩ := abs_le.mp hblng
  by_cases hact : s 0 < (if (8 ≤ timestamp.hour ∧ timestamp.hour ≤ 18) ∧
      ¬(timestamp.day = 0 ∨ timestamp.day = 6) then (0.6 : ℚ) else 0.2)
  · simp only [generateHistoricalDataPoint]
    rw [if_pos hact]
    exact ⟨le_round1_of_le 0 (by norm_num)
        (le_trans (by norm_num) (le_max_left 20 _)),
      round1_le_of_le 1000 (by norm_num)
        (max_le (by norm_num) (by linarith [(hs 1).1, (hs 2).2])),
      le_round1_of_le 0 (by norm_num) (by linarith [(hs 7).1]),
      round1_le_of_le 1000 (by norm_num) (by linarith [(hs 7).2]),
      le_round1_of_le 0 (by norm_num)
        (mul_nonneg hspeed (by linarith [(hs 4).1])),
      by show (0:ℚ) ≤ profile.operatingAltitude + s 8 * 40 - 20;
         linarith [(hs 8).1],
      le_round6_of_le (-90000000) (by norm_num) (by linarith [(hs 5).1]),
      round6_le_of_le 90000000 (by norm_num) (by linarith [(hs 5).2]),
      le_round6_of_le (-180000000) (by norm_num) (by linarith [(hs 6).1]),
      round6_le_of_le 180000000 (by norm_num) (by linarith [(hs 6).2])⟩
  · simp only [generateHistoricalDataPoint]
    rw [if_neg hact]
    exact ⟨by show (0:ℚ) ≤ 85 + s 1 * 15; linarith [(hs 1).1],
      by show (85 : ℚ) + s 1 * 15 ≤ 100; linarith [(hs 1).2],
      by show (0:ℚ) ≤ 60 + s 3 * 20; linarith [(hs 3).1],
      by show (60 : ℚ) + s 3 * 20 ≤ 100; linarith [(hs 3).2],
      le_refl 0, le_refl 0, by linarith, by linarith, by linarith, by linarith⟩

theorem livePoint_inDomain (msin : ℚ → ℚ) (profile : DroneProfile)
    (timestamp : DateT) (s : Rng) (hs : RngOk s) (hhour : timestamp.hour ≤ 23)
    (hbat0 : 0 ≤ profile.currentBattery) (hbat1 : profile.currentBattery ≤ 100)
    (hspeed : 0 ≤ profile.maxSpeed) (halt : 15 ≤ profile.operatingAltitude)
    (hlat : |profile.currentLocation.lat| ≤ 90)
    (hlng : |profile.currentLocation.lng| ≤ 180) :
    InDomain (generateCurrentTelemetry msin profile timestamp s).1 := by
  obtain ⟨hla1, hla2⟩ := abs_le.mp hlat
  obtain ⟨hln1, hln2⟩ := abs_le.mp hlng
  have habs : |(timestamp.hour : ℚ) - 14| ≤ 14 := by
    rw [abs_le]
    refine ⟨by have : (0:ℚ) ≤ (timestamp.hour : ℚ) := Nat.cast_nonneg _; linarith,
      ?_⟩
    have : (timestamp.hour : ℚ) ≤ 23 := by exact_mod_cast hhour
    linarith
  have habs0 : 0 ≤ |(timestamp.hour : ℚ) - 14| := abs_nonneg _
  have hbatL : 0 ≤ round1 profile.currentBattery :=
    le_round1_of_le 0 (by norm_num) hbat0
  have hbatU : round1 profile.currentBattery ≤ 100 :=
    round1_le_of_le 1000 (by norm_num) hbat1
  have hlatL : -90 ≤ round6 profile.currentLocation.lat :=
    le_round6_of_le (-90000000) (by norm_num) hla1
  have hlatU : round6 profile.currentLocation.lat ≤ 90 :=
    round6_le_of_le 90000000 (by norm_num) hla2
  have hlngL : -180 ≤ round6 profile.currentLocation.lng :=
    le_round6_of_le (-180000000) (by norm_num) hln1
  have hlngU : round6 profile.currentLocation.lng ≤ 180 :=
    round6_le_of_le 180000000 (by norm_num) hln2
  have hum2L : 0 ≤ round1 (65 - |(timestamp.hour : ℚ) - 14| * 1.5 + s 2 * 15) :=
    le_round1_of_le 0 (by norm_num) (by linarith [(hs 2).1])
  have hum2U : round1 (65 - |(timestamp.hour : ℚ) - 14| * 1.5 + s 2 * 15) ≤ 100 :=
    round1_le_of_le 1000 (by norm_num) (by linarith [(hs 2).2])
  have hum4L : 0 ≤ round1 (65 - |(timestamp.hour : ℚ) - 14| * 1.5 + s 4 * 15) :=
    le_round1_of_le 0 (by norm_num) (by linarith [(hs 4).1])
  have hum4U : round1 (65 - |(timestamp.hour : ℚ) - 14| * 1.5 + s 4 * 15) ≤ 100 :=
    round1_le_of_le 1000 (by norm_num) (by linarith [(hs 4).2])
  have hsp0 : 0 ≤ round1 (0 : ℚ) := le_round1_of_le 0 (by norm_num) (le_refl 0)
  have halt0 : (0 : ℚ) ≤ (jsRound 0 : ℚ) := by
    exact_mod_cast le_jsRound 0 0 (by norm_num)
  cases hph : profile.missionPhase
  case idle =>
    simp only [generateCurrentTelemetry, hph]
    exact ⟨hbatL, hbatU, hum2L, hum2U, hsp0, halt0,
      hlatL, hlatU, hlngL, hlngU⟩
  case preparing =>
    simp only [generateCurrentTelemetry, hph]
    exact ⟨hbatL, hbatU, hum2L, hum2U, hsp0, halt0,
      hlatL, hlatU, hlngL, hlngU⟩
  case flying =>
    simp only [generateCurrentTelemetry, hph]
    refine ⟨hbatL, hbatU, hum4L, hum4U, ?_, ?_, hlatL, hlatU, hlngL, hlngU⟩
    · exact le_round1_of_le 0 (by norm_num)
        (mul_nonneg hspeed (by linarith [(hs 1).1]))
    · show (0:ℚ) ≤ (jsRound (profile.operatingAltitude + s 2 * 30 - 15) : ℚ)
      exact_mod_cast le_jsRound _ 0 (by push_cast; linarith [(hs 2).1])
  case delivering =>
    simp only [generateCurrentTelemetry, hph]
    exact ⟨hbatL, hbatU, hum2L, hum2U, hsp0, halt0,
      hlatL, hlatU, hlngL, hlngU⟩
  case returning =>
    simp only [generateCurrentTelemetry, hph]
    refine ⟨hbatL, hbatU, hum4L, hum4U, ?_, ?_, hlatL, hlatU, hlngL, hlngU⟩
    · exact le_round1_of_le 0 (by norm_num)
        (mul_nonneg hspeed (by linarith [(hs 1).1]))
    · show (0:ℚ) ≤ (jsRound (profile.operatingAltitude + s 2 * 25 - 10) : ℚ)
      exact_mod_cast le_jsRound _ 0 (by push_cast; linarith [(hs 2).1])

/-- C5: every record either synthesizer produces satisfies the declared
domains (`battery`, `humidity` in `[0, 100]`, `speed ≥ 0`,
`altitude ≥ 0`, `lat` in `[-90, 90]`, `lng` in `[-180, 180]`). The
profile hypotheses are the static configuration and reachable-state
invariants every simulated profile satisfies: nonnegative max speed,
operating altitude at least 20, battery in `[0, 100]`, base location
within one degree of margin inside the latitude/longitude domains, and
current location inside them. -/
theorem records_in_domain (msin : ℚ → ℚ) (profile : DroneProfile)
    (timestamp : DateT) (s s2 : Rng) (hs : RngOk s) (hs2 : RngOk s2)
    (hhour : timestamp.hour ≤ 23)
    (hbat0 : 0 ≤ profile.currentBattery) (hbat1 : profile.currentBattery ≤ 100)
    (hspeed : 0 ≤ profile.maxSpeed) (halt : 20 ≤ profile.operatingAltitude)
    (hblat : |profile.baseLocation.lat| ≤ 89)
    (hblng : |profile.baseLocation.lng| ≤ 179)
    (hlat : |profile.currentLocation.lat| ≤ 90)
    (hlng : |profile.currentLocation.lng| ≤ 180) :
    InDomain (generateHistoricalDataPoint profile timestamp s).1 ∧
    InDomain (generateCurrentTelemetry msin profile timestamp s2).1 :=
  ⟨histPoint_inDomain profile timestamp s hs hspeed halt hblat hblng,
   livePoint_inDomain msin profile timestamp s2 hs2 hhour hbat0 hbat1 hspeed
     (by linarith) hlat hlng⟩

/-- Witness for C5: drone `A1` at base, battery 90, 10:00 local time. -/
theorem records_in_domain_witness :
    (profileA1.currentBattery ≤ 100 ∧ 0 ≤ profileA1.maxSpeed ∧
      20 ≤ profileA1.operatingAltitude ∧ |profileA1.baseLocation.lat| ≤ 89) ∧
    InDomain (generateHistoricalDataPoint profileA1 ⟨0, 10, 2⟩ rngHalf).1 ∧
    InDomain (generateCurrentTelemetry (fun _ => 0) profileA1 ⟨0, 10, 2⟩ rngHalf).1 :=
  ⟨⟨by norm_num [profileA1], by norm_num [profileA1], by norm_num [profileA1],
    by rw [abs_le]; constructor <;> norm_num [profileA1]⟩,
   records_in_domain (fun _ => 0) profileA1 ⟨0, 10, 2⟩ rngHalf rngHalf
     rngHalf_ok rngHalf_ok (by norm_num) (by norm_num [profileA1])
     (by norm_num [profileA1]) (by norm_num [profileA1])
     (by norm_num [profileA1])
     (by rw [abs_le]; constructor <;> norm_num [profileA1])
     (by rw [abs_le]; constructor <;> norm_num [profileA1])
     (by rw [abs_le]; constructor <;> norm_num [profileA1])
     (by rw [abs_le]; constructor <;> norm_num [profileA1])⟩

/-- `q` is an integer multiple of `1 / den` — i.e. `q` is "rounded to"
the grid of denominator `den`. -/
def MultOf (den : ℤ) (q : ℚ) : Prop := ∃ k : ℤ, q = (k : ℚ) / (den : ℚ)

/-- `q` is a whole number. -/
def IsWhole (q : ℚ) : Prop := ∃ k : ℤ, q = (k : ℚ)

theorem multOf_round1 (q : ℚ) : MultOf 10 (round1 q) :=
  ⟨jsRound (q * 10), by norm_num [round1]⟩

theorem multOf_round6 (q : ℚ) : MultOf 1000000 (round6 q) :=
  ⟨jsRound (q * 1000000), by norm_num [round6]⟩

/-- C6 (amended): the rounding the code actually performs. Every live
record has battery, temperature, humidity and speed rounded to one
decimal place, altitude rounded to a whole number, and position rounded
to six decimal places. A historical record produced by the active
branch (activity draw below the activity level) has battery,
temperature, humidity and speed rounded to one decimal place and
position to six decimals, but its altitude is the raw draw
`operatingAltitude + r×40 − 20`; a historical record from the inactive
branch is not rounded at all. -/
theorem records_rounded (msin : ℚ → ℚ) (profile : DroneProfile)
    (timestamp : DateT) (s s2 : Rng) :
    (MultOf 10 (generateCurrentTelemetry msin profile timestamp s2).1.battery ∧
     MultOf 10 (generateCurrentTelemetry msin profile timestamp s2).1.temperature ∧
     MultOf 10 (generateCurrentTelemetry msin profile timestamp s2).1.humidity ∧
     MultOf 10 (generateCurrentTelemetry msin profile timestamp s2).1.speed ∧
     IsWhole (generateCurrentTelemetry msin profile timestamp s2).1.altitude ∧
     MultOf 1000000 (generateCurrentTelemetry msin profile timestamp s2).1.lat ∧
     MultOf 1000000 (generateCurrentTelemetry msin profile timestamp s2).1.lng) ∧
    (s 0 < (if (8 ≤ timestamp.hour ∧ timestamp.hour ≤ 18) ∧
        ¬(timestamp.day = 0 ∨ timestamp.day = 6) then (0.6 : ℚ) else 0.2) →
      MultOf 10 (generateHistoricalDataPoint profile timestamp s).1.battery ∧
      MultOf 10 (generateHistoricalDataPoint profile timestamp s).1.temperature ∧
      MultOf 10 (generateHistoricalDataPoint profile timestamp s).1.humidity ∧
      MultOf 10 (generateHistoricalDataPoint profile timestamp s).1.speed ∧
      MultOf 1000000 (generateHistoricalDataPoint profile timestamp s).1.lat ∧
      MultOf 1000000 (generateHistoricalDataPoint profile timestamp s).1.lng) := by
  constructor
  · cases hph : profile.missionPhase <;>
      simp only [generateCurrentTelemetry, hph] <;>
      exact ⟨multOf_round1 _, multOf_round1 _, multOf_round1 _, multOf_round1 _,
        ⟨jsRound _, rfl⟩, multOf_round6 _, multOf_round6 _⟩
  · intro hact
    simp only [generateHistoricalDataPoint]
    rw [if_pos hact]
    exact ⟨multOf_round1 _, multOf_round1 _, multOf_round1 _, multOf_round1 _,
      multOf_round6 _, multOf_round6 _⟩

/-- Witness for C6 (amended): drone `A1` on a weekday morning with the
constant-half stream, which takes the active branch (0.5 < 0.6). -/
theorem records_rounded_witness :
    rngHalf 0 < (if (8 ≤ (10:ℕ) ∧ (10:ℕ) ≤ 18) ∧ ¬((2:ℕ) = 0 ∨ (2:ℕ) = 6)
      then (0.6 : ℚ) else 0.2) ∧
    (MultOf 10 (generateHistoricalDataPoint profileA1 ⟨0, 10, 2⟩ rngHalf).1.battery ∧
     MultOf 10 (generateHistoricalDataPoint profileA1 ⟨0, 10, 2⟩ rngHalf).1.temperature ∧
     MultOf 10 (generateHistoricalDataPoint profileA1 ⟨0, 10, 2⟩ rngHalf).1.humidity ∧
     MultOf 10 (generateHistoricalDataPoint profileA1 ⟨0, 10, 2⟩ rngHalf).1.speed ∧
     MultOf 1000000 (generateHistoricalDataPoint profileA1 ⟨0, 10, 2⟩ rngHalf).1.lat ∧
     MultOf 1000000 (generateHistoricalDataPoint profileA1 ⟨0, 10, 2⟩ rngHalf).1.lng) ∧
    MultOf 10 (generateCurrentTelemetry (fun _ => 0) profileA1 ⟨0, 10, 2⟩
      rngHalf).1.battery :=
  ⟨by norm_num [rngHalf],
   (records_rounded (fun _ => 0) profileA1 ⟨0, 10, 2⟩ rngHalf rngHalf).2
     (by norm_num [rngHalf]),
   ((records_rounded (fun _ => 0) profileA1 ⟨0, 10, 2⟩ rngHalf rngHalf).1).1⟩

/-- A random stream whose activity draw (0.9) forces the historical
generator's inactive branch, and whose next draw (1/200) produces the
unrounded battery value `85 + 15/200 = 3403/40`. -/
def rngC6 : Rng := fun n => if n = 0 then 9/10 else 1/200

/-- Counterexample to C6 as stated: on a weekday morning the inactive
historical branch emits battery `3403/40 = 85.075`, which is not a
multiple of `1/10` — the inactive branch does not round its fields. -/
theorem records_rounded_counterexample :
    ¬ MultOf 10 (generateHistoricalDataPoint profileA1 ⟨0, 10, 2⟩ rngC6).1.battery := by
  have hb : (generateHistoricalDataPoint profileA1 ⟨0, 10, 2⟩ rngC6).1.battery
      = 3403/40 := by
    simp only [generateHistoricalDataPoint]
    rw [if_neg (by norm_num [rngC6])]
    norm_num [rngC6]
  rw [hb]
  rintro ⟨k, hk⟩
  have h1 : (3403 : ℚ) * 10 = (k : ℚ) * 40 := by
    field_simp at hk
    linarith
  have h2 : (34030 : ℤ) = k * 40 := by exact_mod_cast h1
  omega

/-- The result of one driver tick: the profile-map entries after the
tick (in iteration order), the override registry after the per-drone
checks, the remaining random stream, and the batch of records collected
for the single `insertMany` call. -/
structure TickResult where
  profiles : List (String × DroneProfile)
  registry : Registry
  rng : Rng
  batch : List TelemetryData

/-- `generateAndSaveTelemetry`'s per-drone loop: for every profile-map
entry in order, consult the override registry (threading its lazy
expiry clear); an overridden drone is skipped wholesale, any other
drone is stepped by `updateDroneState` and rendered by
`generateCurrentTelemetry`, its record pushed onto the batch. -/
def generateAndSaveTelemetry (msqrt msin : ℚ → ℚ) (now : DateT) :
    List (String × DroneProfile) → Registry → Rng → TickResult
  | [], reg, s => ⟨[], reg, s, []⟩
  | (droneId, profile) :: rest, reg, s =>
    let check := isDroneUnderManualOverride reg droneId now.millis
    if check.1 then
      let r := generateAndSaveTelemetry msqrt msin now rest check.2 s
      ⟨(droneId, profile) :: r.profiles, r.registry, r.rng, r.batch⟩
    else
      let upd := updateDroneState msqrt profile now s
      let gen := generateCurrentTelemetry msin upd.1 now upd.2
      let r := generateAndSaveTelemetry msqrt msin now rest check.2 gen.2
      ⟨(droneId, upd.1) :: r.profiles, r.registry, r.rng, gen.1 :: r.batch⟩

theorem move_id (msqrt : ℚ → ℚ) (profile : DroneProfile) (destination : Coord) :
    (moveTowardsDestination msqrt profile destination).id = profile.id := by
  simp only [moveTowardsDestination]
  split <;> rfl

theorem update_id (msqrt : ℚ → ℚ) (profile : DroneProfile) (now : DateT)
    (s : Rng) : (updateDroneState msqrt profile now s).1.id = profile.id := by
  have hmv := move_id msqrt profile
  unfold updateDroneState clampBattery
  cases hph : profile.missionPhase
  case idle =>
    simp only [updateDroneStateCore, hph]
    split_ifs <;> rfl
  case preparing =>
    simp only [updateDroneStateCore, hph]
    split_ifs <;> rfl
  case flying =>
    cases hd : profile.destination with
    | none => simp only [updateDroneStateCore, hph, hd]
    | some dest =>
      simp only [updateDroneStateCore, hph, hd]
      split_ifs <;> dsimp only <;> rw [hmv]
  case delivering =>
    simp only [updateDroneStateCore, hph]
    split_ifs <;> rfl
  case returning =>
    simp only [updateDroneStateCore, hph]
    split_ifs <;> dsimp only <;> rw [hmv]

theorem genCurrent_droneId (msin : ℚ → ℚ) (profile : DroneProfile)
    (timestamp : DateT) (s : Rng) :
    (generateCurrentTelemetry msin profile timestamp s).1.droneId =
      profile.id := by
  cases hph : profile.missionPhase <;>
    simp only [generateCurrentTelemetry, hph]

theorem tick_append (msqrt msin : ℚ → ℚ) (now : DateT)
    (xs ys : List (String × DroneProfile)) (reg : Registry) (s : Rng) :
    generateAndSaveTelemetry msqrt msin now (xs ++ ys) reg s =
      ⟨(generateAndSaveTelemetry msqrt msin now xs reg s).profiles ++
          (generateAndSaveTelemetry msqrt msin now ys
            (generateAndSaveTelemetry msqrt msin now xs reg s).registry
            (generateAndSaveTelemetry msqrt msin now xs reg s).rng).profiles,
        (generateAndSaveTelemetry msqrt msin now ys
          (generateAndSaveTelemetry msqrt msin now xs reg s).registry
          (generateAndSaveTelemetry msqrt msin now xs reg s).rng).registry,
        (generateAndSaveTelemetry msqrt msin now ys
          (generateAndSaveTelemetry msqrt msin now xs reg s).registry
          (generateAndSaveTelemetry msqrt msin now xs reg s).rng).rng,
        (generateAndSaveTelemetry msqrt msin now xs reg s).batch ++
          (generateAndSaveTelemetry msqrt msin now ys
            (generateAndSaveTelemetry msqrt msin now xs reg s).registry
            (generateAndSaveTelemetry msqrt msin now xs reg s).rng).batch⟩ := by
  induction xs generalizing reg s with
  | nil => simp [generateAndSaveTelemetry]
  | cons hd tl ih =>
    obtain ⟨droneId, profile⟩ := hd
    simp only [List.cons_append, generateAndSaveTelemetry]
    split_ifs with h
    · rw [List.append_eq, ih]; rfl
    · rw [List.append_eq, ih]; rfl

theorem tick_profiles_keys (msqrt msin : ℚ → ℚ) (now : DateT)
    (xs : List (String × DroneProfile)) (reg : Registry) (s : Rng) :
    (generateAndSaveTelemetry msqrt msin now xs reg s).profiles.map Prod.fst =
      xs.map Prod.fst := by
  induction xs generalizing reg s with
  | nil => rfl
  | cons hd tl ih =>
    obtain ⟨droneId, profile⟩ := hd
    simp only [generateAndSaveTelemetry]
    split_ifs with h <;> simp [ih]

theorem tick_batch_ids (msqrt msin : ℚ → ℚ) (now : DateT)
    (xs : List (String × DroneProfile)) (reg : Registry) (s : Rng)
    (hids : ∀ p ∈ xs, (p.2).id = p.1) :
    ∀ d ∈ (generateAndSaveTelemetry msqrt msin now xs reg s).batch,
      d.droneId ∈ xs.map Prod.fst := by
  induction xs generalizing reg s with
  | nil => intro d hd; simp [generateAndSaveTelemetry] at hd
  | cons hd tl ih =>
    obtain ⟨droneId, profile⟩ := hd
    intro d hdm
    simp only [generateAndSaveTelemetry] at hdm
    split_ifs at hdm with h
    · have := ih _ _ (fun p hp => hids p (List.mem_cons_of_mem _ hp)) d hdm
      simp only [List.map_cons]
      exact List.mem_cons_of_mem _ this
    · dsimp only at hdm
      simp only [List.map_cons]
      rcases List.mem_cons.mp hdm with hdg | hrest
      · subst hdg
        rw [genCurrent_droneId, update_id, hids (droneId, profile)
          (List.mem_cons_self _ _)]
        exact List.mem_cons_self _ _
      · exact List.mem_cons_of_mem _
          (ih _ _ (fun p hp => hids p (List.mem_cons_of_mem _ hp)) d hrest)

theorem lookup_append_not_mem {β : Type} {a : String}
    {l : List (String × β)} (h : a ∉ l.map Prod.fst)
    (l2 : List (String × β)) :
    List.lookup a (l ++ l2) = List.lookup a l2 := by
  induction l with
  | nil => rfl
  | cons hd tl ih =>
    obtain ⟨k, v⟩ := hd
    simp only [List.map_cons, List.mem_cons] at h
    push_neg at h
    simp only [List.cons_append, List.lookup]
    have : (a == k) = false := beq_eq_false_iff_ne.mpr h.1
    rw [this]
    exact ih h.2

/-- C1: skip guarantee. Put the profile map as `pre ++ (id, p) :: post`
with `id` appearing nowhere else (profile-map keys are unique) and each
entry's key equal to its profile's `id` (as `initializeProfiles`
guarantees). If the override check performed when the tick reaches that
drone — i.e. against the registry left by the preceding entries —
reports it overridden, then the tick's resulting map still holds the
identical profile value for `id`, and no record in the tick's batch
carries that drone's identifier. -/
theorem overridden_drone_skipped (msqrt msin : ℚ → ℚ) (now : DateT)
    (pre post : List (String × DroneProfile)) (droneId : String)
    (profile : DroneProfile) (reg : Registry) (s : Rng)
    (hpre : droneId ∉ pre.map Prod.fst) (hpost : droneId ∉ post.map Prod.fst)
    (hids : ∀ p ∈ pre ++ post, (p.2).id = p.1)
    (hover : (isDroneUnderManualOverride
        (generateAndSaveTelemetry msqrt msin now pre reg s).registry droneId
        now.millis).1 = true) :
    List.lookup droneId (generateAndSaveTelemetry msqrt msin now
        (pre ++ (droneId, profile) :: post) reg s).profiles = some profile ∧
    ∀ d ∈ (generateAndSaveTelemetry msqrt msin now
        (pre ++ (droneId, profile) :: post) reg s).batch,
      d.droneId ≠ droneId := by
  rw [tick_append]
  have hpreids : ∀ p ∈ pre, (p.2).id = p.1 :=
    fun p hp => hids p (List.mem_append_left _ hp)
  have hpostids : ∀ p ∈ post, (p.2).id = p.1 :=
    fun p hp => hids p (List.mem_append_right _ hp)
  constructor
  · dsimp only
    rw [lookup_append_not_mem (by rw [tick_profiles_keys]; exact hpre)]
    simp only [generateAndSaveTelemetry]
    rw [if_pos hover]
    dsimp only
    simp [List.lookup]
  · intro d hd
    dsimp only at hd
    rcases List.mem_append.mp hd with hleft | hright
    · intro hcon
      apply hpre
      rw [← hcon]
      exact tick_batch_ids msqrt msin now pre reg s hpreids d hleft
    · revert hright
      simp only [generateAndSaveTelemetry]
      rw [if_pos hover]
      dsimp only
      intro hright hcon
      apply hpost
      rw [← hcon]
      exact tick_batch_ids msqrt msin now post _ _ hpostids d hright

/-- A sample profile for drone `B2` with its configured static values. -/
def profileB2 : DroneProfile :=
  { id := "B2", name := "Drone B2",
    baseLocation := { lat := -1.3167, lng := 36.8833 },
    batteryDecayRate := 0.6, maxSpeed := 75, operatingAltitude := 200,
    currentBattery := 88,
    currentLocation := { lat := -1.3167, lng := 36.8833 },
    missionPhase := .idle }

/-- Witness for C1: a two-drone map where `A1` is free and `B2` is
overridden (its `regSample` entry has a future expiry at tick time
200): the tick keeps `B2`'s profile verbatim and batches no record
with its identifier. -/
theorem overridden_drone_skipped_witness :
    ("B2" ∉ ([("A1", profileA1)] :
        List (String × DroneProfile)).map Prod.fst) ∧
    (∀ p ∈ ([("A1", profileA1)] ++ ([] : List (String × DroneProfile))),
      (p.2).id = p.1) ∧
    (isDroneUnderManualOverride
        (generateAndSaveTelemetry (fun _ => 0) (fun _ => 0) ⟨200, 10, 2⟩
          [("A1", profileA1)] regSample rngHalf).registry "B2" 200).1 = true ∧
    (List.lookup "B2" (generateAndSaveTelemetry (fun _ => 0) (fun _ => 0)
        ⟨200, 10, 2⟩ ([("A1", profileA1)] ++ ("B2", profileB2) :: [])
        regSample rngHalf).profiles = some profileB2 ∧
     ∀ d ∈ (generateAndSaveTelemetry (fun _ => 0) (fun _ => 0) ⟨200, 10, 2⟩
        ([("A1", profileA1)] ++ ("B2", profileB2) :: [])
        regSample rngHalf).batch, d.droneId ≠ "B2") := by
  have hpre : "B2" ∉ ([("A1", profileA1)] :
      List (String × DroneProfile)).map Prod.fst := by simp
  have hpost : "B2" ∉ ([] : List (String × DroneProfile)).map Prod.fst := by
    simp
  have hids : ∀ p ∈ ([("A1", profileA1)] ++
      ([] : List (String × DroneProfile))), (p.2).id = p.1 := by
    intro p hp
    simp only [List.append_nil, List.mem_singleton] at hp
    subst hp
    rfl
  have hreg : (generateAndSaveTelemetry (fun _ => 0) (fun _ => 0) ⟨200, 10, 2⟩
      [("A1", profileA1)] regSample rngHalf).registry = regSample := by
    have heq1 : isDroneUnderManualOverride regSample "A1" 200 =
        (false, regSample) :=
      isOv_flagFalse regSample "A1" 200 stFlagOff rfl rfl
    simp only [generateAndSaveTelemetry]
    rw [heq1]
    rfl
  have hover : (isDroneUnderManualOverride
      (generateAndSaveTelemetry (fun _ => 0) (fun _ => 0) ⟨200, 10, 2⟩
        [("A1", profileA1)] regSample rngHalf).registry "B2" 200).1 = true := by
    rw [hreg, isOv_active regSample "B2" 200 stFuture rfl rfl
      (Or.inr ⟨300, rfl, by decide⟩)]
  exact ⟨hpre, hids, hover,
    overridden_drone_skipped (fun _ => 0) (fun _ => 0) ⟨200, 10, 2⟩
      [("A1", profileA1)] [] "B2" profileB2 regSample rngHalf
      hpre hpost hids hover⟩

/-- The `Date` the environment builds from a millisecond value, with
its local-calendar `getHours` / `getDay` given by `hourOf` / `dayOf`. -/
def dateAt (hourOf dayOf : ℤ → ℕ) (m : ℤ) : DateT := ⟨m, hourOf m, dayOf m⟩

/-- The inner backfill loop body: one `generateHistoricalDataPoint` per
profile, in map order, at a fixed timestamp, threading the stream. -/
def histPointsAt : List DroneProfile → DateT → Rng → List TelemetryData × Rng
  | [], _, s => ([], s)
  | p :: rest, timestamp, s =>
    let g := generateHistoricalDataPoint p timestamp s
    let r := histPointsAt rest timestamp g.2
    (g.1 :: r.1, r.2)

/-- The outer backfill loop, `i` counting down exactly like the
source's `for (let i = totalPoints; i >= 0; i--)`, with timestamp
`now − i × 3 × 60000`. -/
def backfillGo (hourOf dayOf : ℤ → ℕ) (profiles : List DroneProfile)
    (nowMs : ℤ) : ℕ → Rng → List TelemetryData × Rng
  | 0, s => histPointsAt profiles (dateAt hourOf dayOf nowMs) s
  | i + 1, s =>
    let g := histPointsAt profiles
      (dateAt hourOf dayOf (nowMs - ((i : ℤ) + 1) * 3 * 60000)) s
    let r := backfillGo hourOf dayOf profiles nowMs i g.2
    (g.1 ++ r.1, r.2)

/-- `generateHistoricalData`: `totalPoints = hours×60/3` steps back
from `now` at 3-minute spacing (earliest timestamp first), one
historical point per drone per timestamp. -/
def generateHistoricalData (hourOf dayOf : ℤ → ℕ)
    (profiles : List DroneProfile) (nowMs : ℤ) (hours : ℕ) (s : Rng) :
    List TelemetryData :=
  (backfillGo hourOf dayOf profiles nowMs ((hours * 60) / 3) s).1

/-- The batching loop `for (i = 0; i < len; i += batchSize)
slice(i, i + batchSize)`: consecutive slices of at most `batchSize`
records. (The `batchSize = 0` guard only serves termination; the
source always calls this with `batchSize = 100`.) -/
def chunksOf {α : Type} (batchSize : ℕ) : List α → List (List α)
  | [] => []
  | x :: xs =>
    if h : batchSize = 0 then []
    else (x :: xs).take batchSize :: chunksOf batchSize ((x :: xs).drop batchSize)
termination_by l => l.length
decreasing_by
  simp only [List.length_drop, List.length_cons]
  omega

/-- `initializeDatabase`'s decision: with a zero persisted record
count, backfill 6 hours of history and write it in chunks of 100;
otherwise write nothing. -/
def initDatabase (hourOf dayOf : ℤ → ℕ) (profiles : List DroneProfile)
    (nowMs : ℤ) (count : ℕ) (s : Rng) : List (List TelemetryData) :=
  if count = 0 then
    chunksOf 100 (generateHistoricalData hourOf dayOf profiles nowMs 6 s)
  else []

theorem histPoint_head (profile : DroneProfile) (timestamp : DateT) (s : Rng) :
    (generateHistoricalDataPoint profile timestamp s).1.droneId = profile.id ∧
    (generateHistoricalDataPoint profile timestamp s).1.timestamp =
      timestamp.millis := by
  simp only [generateHistoricalDataPoint]
  split <;> split <;> exact ⟨rfl, rfl⟩

theorem histPointsAt_map (profiles : List DroneProfile) (timestamp : DateT)
    (s : Rng) :
    ((histPointsAt profiles timestamp s).1).map
        (fun d => (d.droneId, d.timestamp)) =
      profiles.map (fun p => (p.id, timestamp.millis)) := by
  induction profiles generalizing s with
  | nil => rfl
  | cons p rest ih =>
    simp only [histPointsAt, List.map_cons]
    rw [(histPoint_head p timestamp s).1, (histPoint_head p timestamp s).2, ih]

theorem histPointsAt_length (profiles : List DroneProfile) (timestamp : DateT)
    (s : Rng) :
    (histPointsAt profiles timestamp s).1.length = profiles.length := by
  have h := congrArg List.length (histPointsAt_map profiles timestamp s)
  simpa using h

theorem backfillGo_map (hourOf dayOf : ℤ → ℕ) (profiles : List DroneProfile)
    (nowMs : ℤ) (i : ℕ) : ∀ s : Rng,
    ((backfillGo hourOf dayOf profiles nowMs i s).1).map
        (fun d => (d.droneId, d.timestamp)) =
      ((List.range (i + 1)).reverse.map (fun (k : ℕ) =>
        profiles.map (fun p => (p.id, nowMs - (k : ℤ) * 3 * 60000)))).flatten := by
  induction i with
  | zero =>
    intro s
    simp only [backfillGo]
    rw [histPointsAt_map]
    have h1 : List.range 1 = [0] := rfl
    rw [h1]
    simp only [List.reverse_singleton, List.map_cons, List.map_nil,
      List.flatten_cons, List.flatten_nil, List.append_nil, dateAt,
      Nat.cast_zero, zero_mul, sub_zero]
  | succ i ih =>
    intro s
    simp only [backfillGo, List.map_append]
    rw [histPointsAt_map, ih]
    have hr : List.range (i + 1 + 1) = List.range (i + 1) ++ [i + 1] := by
      exact List.range_succ (i + 1)
    rw [hr, List.reverse_append]
    simp only [List.reverse_singleton, List.singleton_append, List.map_cons,
      List.flatten_cons, dateAt]
    rw [show ((i : ℤ) + 1) * 3 * 60000 = ((i + 1 : ℕ) : ℤ) * 3 * 60000 by
      push_cast; ring]

theorem backfillGo_length (hourOf dayOf : ℤ → ℕ) (profiles : List DroneProfile)
    (nowMs : ℤ) (i : ℕ) : ∀ s : Rng,
    (backfillGo hourOf dayOf profiles nowMs i s).1.length =
      (i + 1) * profiles.length := by
  induction i with
  | zero =>
    intro s
    simp [backfillGo, histPointsAt_length]
  | succ i ih =>
    intro s
    simp only [backfillGo, List.length_append, histPointsAt_length, ih]
    ring

theorem chunksOf_flatten {α : Type} (batchSize : ℕ) (hb : batchSize ≠ 0) :
    ∀ l : List α, (chunksOf batchSize l).flatten = l := by
  have key : ∀ (n : ℕ) (l : List α), l.length ≤ n →
      (chunksOf batchSize l).flatten = l := by
    intro n
    induction n with
    | zero =>
      intro l hl
      have h0 : l = [] := List.eq_nil_of_length_eq_zero (Nat.le_zero.mp hl)
      subst h0
      simp [chunksOf]
    | succ n ih =>
      intro l hl
      cases l with
      | nil => simp [chunksOf]
      | cons x xs =>
        rw [chunksOf, dif_neg hb, List.flatten_cons,
          ih ((x :: xs).drop batchSize)
            (by simp only [List.length_drop, List.length_cons] at *; omega),
          List.take_append_drop]
  exact fun l => key l.length l (le_refl _)

theorem chunksOf_le {α : Type} (batchSize : ℕ) :
    ∀ (l : List α) (c : List α), c ∈ chunksOf batchSize l →
      c.length ≤ batchSize := by
  have key : ∀ (n : ℕ) (l : List α), l.length ≤ n →
      ∀ c ∈ chunksOf batchSize l, c.length ≤ batchSize := by
    intro n
    induction n with
    | zero =>
      intro l hl c hc
      have h0 : l = [] := List.eq_nil_of_length_eq_zero (Nat.le_zero.mp hl)
      subst h0
      simp [chunksOf] at hc
    | succ n ih =>
      intro l hl c hc
      cases l with
      | nil => simp [chunksOf] at hc
      | cons x xs =>
        by_cases hb : batchSize = 0
        · rw [chunksOf, dif_pos hb] at hc
          simp at hc
        · rw [chunksOf, dif_neg hb] at hc
          rcases List.mem_cons.mp hc with hc1 | hc2
          · subst hc1
            simpa using List.length_take_le batchSize (x :: xs)
          · refine ih ((x :: xs).drop batchSize) ?_ c hc2
            simp only [List.length_drop, List.length_cons] at *
            omega
  exact fun l => key l.length l (le_refl _)

/-- C9: cold-start backfill. With a zero persisted count the
initialization writes the 6-hour backfill in chunks of 100; and for
every positive hour count, the generated batch has exactly
`(hours×60/3 + 1)` timestamps, spaced 3 minutes apart and ending at
`now` (the identifier/timestamp skeleton equals one block per
timestamp, earliest first, holding one record per drone in map order),
so its length is `(hours×60/3 + 1) × #drones`; the chunking
concatenates back to the batch and every chunk holds at most 100
records. -/
theorem cold_start_backfill (hourOf dayOf : ℤ → ℕ)
    (profiles : List DroneProfile) (nowMs : ℤ) (hours : ℕ) (s : Rng)
    (hpos : 0 < hours) :
    initDatabase hourOf dayOf profiles nowMs 0 s =
      chunksOf 100 (generateHistoricalData hourOf dayOf profiles nowMs 6 s) ∧
    (generateHistoricalData hourOf dayOf profiles nowMs hours s).length =
      ((hours * 60) / 3 + 1) * profiles.length ∧
    (generateHistoricalData hourOf dayOf profiles nowMs hours s).map
        (fun d => (d.droneId, d.timestamp)) =
      ((List.range ((hours * 60) / 3 + 1)).reverse.map (fun (k : ℕ) =>
        profiles.map (fun p => (p.id, nowMs - (k : ℤ) * 3 * 60000)))).flatten ∧
    (chunksOf 100
        (generateHistoricalData hourOf dayOf profiles nowMs hours s)).flatten =
      generateHistoricalData hourOf dayOf profiles nowMs hours s ∧
    ∀ c ∈ chunksOf 100 (generateHistoricalData hourOf dayOf profiles nowMs
        hours s), c.length ≤ 100 :=
  ⟨by rw [initDatabase, if_pos rfl],
   backfillGo_length hourOf dayOf profiles nowMs ((hours * 60) / 3) s,
   backfillGo_map hourOf dayOf profiles nowMs ((hours * 60) / 3) s,
   chunksOf_flatten 100 (by norm_num) _,
   chunksOf_le 100 _⟩

/-- Witness for C9: a one-hour backfill for drone `A1` anchored at
time 0 in an environment where it is always 10:00 on a Tuesday. -/
theorem cold_start_backfill_witness :
    0 < 1 ∧
    (initDatabase (fun _ => 10) (fun _ => 2) [profileA1] 0 0 rngHalf =
      chunksOf 100
        (generateHistoricalData (fun _ => 10) (fun _ => 2) [profileA1] 0 6
          rngHalf) ∧
    (generateHistoricalData (fun _ => 10) (fun _ => 2) [profileA1] 0 1
        rngHalf).length = ((1 * 60) / 3 + 1) * [profileA1].length ∧
    (generateHistoricalData (fun _ => 10) (fun _ => 2) [profileA1] 0 1
        rngHalf).map (fun d => (d.droneId, d.timestamp)) =
      ((List.range ((1 * 60) / 3 + 1)).reverse.map (fun (k : ℕ) =>
        [profileA1].map (fun p => (p.id, 0 - (k : ℤ) * 3 * 60000)))).flatten ∧
    (chunksOf 100 (generateHistoricalData (fun _ => 10) (fun _ => 2)
        [profileA1] 0 1 rngHalf)).flatten =
      generateHistoricalData (fun _ => 10) (fun _ => 2) [profileA1] 0 1
        rngHalf ∧
    ∀ c ∈ chunksOf 100 (generateHistoricalData (fun _ => 10) (fun _ => 2)
        [profileA1] 0 1 rngHalf), c.length ≤ 100) :=
  ⟨by decide,
   cold_start_backfill (fun _ => 10) (fun _ => 2) [profileA1] 0 1 rngHalf
     (by decide)⟩

/-- The POST handler's override-duration computation,
`duration || 5 * 60 * 1000`: JS `||` takes the default when `duration`
is absent or falsy — for a number, when it is 0. -/
def overrideDurationOf (duration : Option ℤ) : ℤ :=
  match duration with
  | none => 5 * 60 * 1000
  | some d => if d = 0 then 5 * 60 * 1000 else d

/-- `overrideExpiry = new Date(Date.now() + overrideDuration)`. -/
def overrideExpiryOf (nowMs : ℤ) (duration : Option ℤ) : ℤ :=
  nowMs + overrideDurationOf duration

/-- C10: a POST with `duration = 0` (a falsy number) gets the default
expiry `now + 5 minutes`, identical to omitting `duration` — a
zero-length override behaves as a 5-minute override. -/
theorem zero_duration_defaults_to_five_minutes (nowMs : ℤ) :
    overrideExpiryOf nowMs (some 0) = nowMs + 5 * 60 * 1000 ∧
    overrideExpiryOf nowMs (some 0) = overrideExpiryOf nowMs none :=
  ⟨rfl, rfl⟩

end Luna
